import Mathlib

/-!
Verification development for the taxonomic-identity resolution engine of this
repository: the functions `load_rankedlineage`, `validate_against_higher_ranks`,
`resolve_taxid` and `create_return_tuple` of `taxonomy_resolver.py`, together
with the duplicated variant of the same engine in `taxid_fetcher.py`.

Modelling conventions (shallow embedding):
* Python strings are `String`; `str.lower` is `pyLower`, `str.strip` is
  `pyStrip`, `str.startswith` is `pyStartswith`, slicing `s[len(g):]` is
  `pyDrop s (pyLen g)`, `.split('|')` is `pySplitPipe`, and the substring
  test `pat in s` is `pyIn pat s`.  These are structurally recursive
  character-list implementations of the Python semantics (ASCII case
  mapping and ASCII whitespace, which covers all data these scripts treat
  specially).
* A Python dict keyed by strings is a function `String → Option _`;
  `d[k] = v` is a pointwise override, `k in d` is `(d k).isSome`.
* The derived species entry of a lineage dict can be Python `None`, so it is
  modelled as `Option String`; every other entry is always a string.
* The reference file is a list of its lines; file I/O, progress printing and
  the CSV layers are out of scope, exactly as in the specification.
-/

/-- Result quadruple returned by `resolve_taxid`:
`(taxid, matched_rank, lineage_string, is_mismatch)`.  Python `None` in the
first and third components is `Option.none`. -/
abbrev ResolveResult := Option String × String × Option String × Bool

/-- One parsed reference row: the `lineage` dict built inside
`load_rankedlineage` (taxonomy_resolver.py lines 85-96).  The derived
`species` entry can be Python `None`, hence `Option String`. -/
structure Lineage where
  taxid : String
  scientific_name : String
  species : Option String
  genus : String
  family : String
  order : String
  class_name : String
  phylum : String
  kingdom : String
  superkingdom : String
deriving DecidableEq

/-- The query: the `target_ranks` dict built at the top of `resolve_taxid`
from the six string arguments (taxonomy_resolver.py lines 207-214). -/
structure Query where
  phylum : String
  class_name : String
  order : String
  family : String
  genus : String
  species : String
deriving DecidableEq

/-- The `tax_data` dictionary of seven indices built by `load_rankedlineage`
(taxonomy_resolver.py lines 40-48).  Single-valued indices map a key to one
record (later insertions overwrite), multi-valued indices map a key to the
list of records appended in file-encounter order. -/
structure TaxData where
  by_scientific_name : String → Option Lineage
  by_species : String → Option Lineage
  by_genus : String → Option (List Lineage)
  by_family : String → Option (List Lineage)
  by_order : String → Option (List Lineage)
  by_class : String → Option (List Lineage)
  by_phylum : String → Option (List Lineage)

/-- The initially empty `tax_data` dictionary. -/
def emptyTaxData : TaxData :=
  { by_scientific_name := fun _ => none
    by_species := fun _ => none
    by_genus := fun _ => none
    by_family := fun _ => none
    by_order := fun _ => none
    by_class := fun _ => none
    by_phylum := fun _ => none }

/-- Python dict assignment `d[k] = v` on a single-valued index. -/
def mapInsert (d : String → Option Lineage) (k : String) (v : Lineage) :
    String → Option Lineage :=
  fun q => if q = k then some v else d q

/-- The `if k not in d: d[k] = []` followed by `d[k].append(v)` pattern used
for the multi-valued indices (taxonomy_resolver.py lines 108-135). -/
def multiInsert (d : String → Option (List Lineage)) (k : String) (v : Lineage) :
    String → Option (List Lineage) :=
  fun q => if q = k then some ((d k).getD [] ++ [v]) else d q

/-- Whether `pat` is a prefix of `s` (character lists). -/
def listStarts : List Char → List Char → Bool
  | _, [] => true
  | [], _ :: _ => false
  | c :: cs, p :: ps => c == p && listStarts cs ps

/-- Python `str.startswith`. -/
def pyStartswith (s pre : String) : Bool := listStarts s.data pre.data

/-- Python `str.lower` (ASCII case mapping). -/
def pyLower (s : String) : String := ⟨s.data.map Char.toLower⟩

/-- Python `len` on a string. -/
def pyLen (s : String) : Nat := s.data.length

/-- Python slicing `s[n:]` (forgiving when `n` exceeds the length). -/
def pyDrop (s : String) (n : Nat) : String := ⟨s.data.drop n⟩

/-- The whitespace characters removed by Python `str.strip`. -/
def isSpaceChar (c : Char) : Bool :=
  c == ' ' || c == '\t' || c == '\n' || c == '\r' || c == '\x0b' || c == '\x0c'

/-- Drop leading whitespace from a character list. -/
def dropSpaces : List Char → List Char
  | [] => []
  | c :: cs => if isSpaceChar c then dropSpaces cs else c :: cs

/-- Python `str.strip`: remove leading and trailing whitespace. -/
def pyStrip (s : String) : String :=
  ⟨(dropSpaces (dropSpaces s.data).reverse).reverse⟩

/-- Split a character list on the `|` character, Python `split('|')` style:
no collapsing, an empty input yields one empty field. -/
def splitPipe : List Char → List (List Char)
  | [] => [[]]
  | c :: cs =>
    match splitPipe cs with
    | [] => [[]]
    | h :: t => if c == '|' then [] :: h :: t else (c :: h) :: t

/-- Python `str.split('|')`. -/
def pySplitPipe (s : String) : List String := (splitPipe s.data).map (fun l => ⟨l⟩)

/-- Whether `pat` occurs as a contiguous substring of `s` (character lists). -/
def subMem (pat : List Char) : List Char → Bool
  | [] => pat.isEmpty
  | c :: rest => listStarts (c :: rest) pat || subMem pat rest

/-- Python's substring containment test `pat in s`. -/
def pyIn (pat s : String) : Bool := subMem pat.data s.data

/-- The uncertainty/rank-qualifier markers checked against the lowercased
derived species (taxonomy_resolver.py line 82), in source order. -/
def speciesMarkers : List String := ["sp.", "cf.", "aff.", "x ", "subsp.", "var."]

/-- `any(x in s for x in markers)` from taxonomy_resolver.py line 82;
`s` is the already-lowercased species value. -/
def hasMarker (s : String) : Bool := speciesMarkers.any (fun m => pyIn m s)

/-- Species extraction before the marker filter (taxonomy_resolver.py
lines 70-79): strip a duplicated genus prefix from the species field, fall
back to the scientific name minus the genus prefix, else Python `None`.
Note the `startswith` on the scientific name is not lowercased, exactly as
in the source. -/
def deriveSpeciesRaw (scientific_name species_field genus : String) : Option String :=
  if species_field ≠ "" then
    if genus ≠ "" && pyStartswith (pyLower species_field) (pyLower genus) then
      some (pyStrip (pyDrop species_field (pyLen genus)))
    else
      some species_field
  else if genus ≠ "" && pyStartswith scientific_name genus then
    some (pyStrip (pyDrop scientific_name (pyLen genus)))
  else
    none

/-- Species extraction followed by the marker filter `if species and any(...)`
(taxonomy_resolver.py lines 70-83).  A truthy species containing a marker is
replaced by Python `None`. -/
def deriveSpecies (scientific_name species_field genus : String) : Option String :=
  match deriveSpeciesRaw scientific_name species_field genus with
  | some s => if s ≠ "" && hasMarker (pyLower s) then none else some s
  | none => none

/-- Parse one reference line into a `Lineage` record: strip the line, split on
`|`, strip every part, skip lines with fewer than 10 fields, then build the
lineage dict (taxonomy_resolver.py lines 55-96). -/
def parseLine (line : String) : Option Lineage :=
  let parts := (pySplitPipe (pyStrip line)).map pyStrip
  if parts.length < 10 then none
  else some
    { taxid := parts.getD 0 ""
      scientific_name := parts.getD 1 ""
      species := deriveSpecies (parts.getD 1 "") (parts.getD 2 "") (parts.getD 3 "")
      genus := parts.getD 3 ""
      family := parts.getD 4 ""
      order := parts.getD 5 ""
      class_name := parts.getD 6 ""
      phylum := parts.getD 7 ""
      kingdom := parts.getD 8 ""
      superkingdom := parts.getD 9 "" }

/-- Insert one parsed record into all seven indices (taxonomy_resolver.py
lines 98-135): the scientific-name index unconditionally, the species index
only when both the derived species and the genus are truthy (key
`f"{genus.lower()} {species.lower()}"`), and each multi-valued index only
when the respective rank value is truthy (key lowercased). -/
def insertRecord (td : TaxData) (l : Lineage) : TaxData :=
  { by_scientific_name := mapInsert td.by_scientific_name (pyLower l.scientific_name) l
    by_species :=
      match l.species with
      | some s =>
          if s ≠ "" && l.genus ≠ "" then
            mapInsert td.by_species (pyLower l.genus ++ " " ++ pyLower s) l
          else td.by_species
      | none => td.by_species
    by_genus :=
      if l.genus ≠ "" then multiInsert td.by_genus (pyLower l.genus) l else td.by_genus
    by_family :=
      if l.family ≠ "" then multiInsert td.by_family (pyLower l.family) l else td.by_family
    by_order :=
      if l.order ≠ "" then multiInsert td.by_order (pyLower l.order) l else td.by_order
    by_class :=
      if l.class_name ≠ "" then multiInsert td.by_class (pyLower l.class_name) l
      else td.by_class
    by_phylum :=
      if l.phylum ≠ "" then multiInsert td.by_phylum (pyLower l.phylum) l else td.by_phylum }

/-- Process one line of the reference stream: malformed lines (fewer than 10
fields) are skipped without error, valid lines are indexed. -/
def processLine (td : TaxData) (line : String) : TaxData :=
  match parseLine line with
  | none => td
  | some l => insertRecord td l

/-- `load_rankedlineage` over a reference stream given as its list of lines
(taxonomy_resolver.py lines 28-151, identical in taxid_fetcher.py
lines 29-160).  File decoding and progress printing are out of scope. -/
def load_rankedlineage (lines : List String) : TaxData :=
  lines.foldl processLine emptyTaxData

/-- `target_ranks.get(rank)`: field access on the query dict by rank name. -/
def targetGet (q : Query) (rank : String) : Option String :=
  if rank = "phylum" then some q.phylum
  else if rank = "class" then some q.class_name
  else if rank = "order" then some q.order
  else if rank = "family" then some q.family
  else if rank = "genus" then some q.genus
  else if rank = "species" then some q.species
  else none

/-- `lineage.get(rank)`: field access on a lineage dict by key name.  The
`species` entry is returned as stored, so a `none` result for `"species"`
means the stored Python `None`; for keys outside the dict the result is also
`none` (Python `dict.get` default). -/
def lineageGet (l : Lineage) (rank : String) : Option String :=
  if rank = "taxid" then some l.taxid
  else if rank = "scientific_name" then some l.scientific_name
  else if rank = "species" then l.species
  else if rank = "genus" then some l.genus
  else if rank = "family" then some l.family
  else if rank = "order" then some l.order
  else if rank = "class" then some l.class_name
  else if rank = "phylum" then some l.phylum
  else if rank = "kingdom" then some l.kingdom
  else if rank = "superkingdom" then some l.superkingdom
  else none

/-- Python truthiness of a value obtained from a dict: `None` and the empty
string are falsy, every other string is truthy. -/
def pyTruthy (o : Option String) : Bool := (o.getD "") != ""

/-- Rendering of a dict value inside the f-string of `create_return_tuple`:
a stored string renders as itself, a stored Python `None` renders as the
string `None`. -/
def pyStr (o : Option String) : String :=
  match o with
  | some s => s
  | none => "None"

/-- Python's `";".join(...)` on a list of strings. -/
def joinSemi : List String → String
  | [] => ""
  | [x] => x
  | x :: y :: rest => x ++ ";" ++ joinSemi (y :: rest)

/-- The fixed rank order of the lineage string (taxonomy_resolver.py line 260). -/
def lineage_ranks : List String :=
  ["superkingdom", "kingdom", "phylum", "class", "order", "family", "genus", "species"]

/-- The `";".join(f"{rank}:{lineage.get(rank, '')}" ...)` expression of
`create_return_tuple` (taxonomy_resolver.py lines 258-261).  Every listed
key is present in the lineage dict, so the `.get` default is never taken;
a stored `None` species is rendered `None` by the f-string. -/
def lineage_string (l : Lineage) : String :=
  joinSemi (lineage_ranks.map (fun rank => rank ++ ":" ++ pyStr (lineageGet l rank)))

/-- `create_return_tuple` (taxonomy_resolver.py lines 256-262, identical in
taxid_fetcher.py lines 285-291). -/
def create_return_tuple (lineage : Lineage) (matched_rank : String) (is_mismatch : Bool) :
    ResolveResult :=
  (some lineage.taxid, matched_rank, some (lineage_string lineage), is_mismatch)

/-- The `validation_ranks` dict lookup `validation_ranks.get(validation_level, [])`
(taxonomy_resolver.py lines 166-174): each of the four known levels maps to
the singleton list of that same rank, anything else to the empty list. -/
def validation_ranks (validation_level : String) : List String :=
  if validation_level = "family" then ["family"]
  else if validation_level = "order" then ["order"]
  else if validation_level = "class" then ["class"]
  else if validation_level = "phylum" then ["phylum"]
  else []

/-- The `validation_levels` list of `resolve_taxid` (taxonomy_resolver.py
line 216, identical in taxid_fetcher.py line 233). -/
def validation_levels : List String := ["family", "order", "class", "phylum"]

/-- Normalisation of the species lookup key in the species-level attempt of
`resolve_taxid` (taxonomy_resolver.py lines 220-225, identical in
taxid_fetcher.py lines 238-243): strip a duplicated genus prefix, then build
`f"{genus.lower()} {species_name.lower()}"`. -/
def species_query_key (genus species : String) : String :=
  let species_name :=
    if pyStartswith (pyLower species) (pyLower genus) then pyStrip (pyDrop species (pyLen genus))
    else species
  pyLower genus ++ " " ++ pyLower species_name

/-- The subscript `tax_data[f'by_{rank}']` restricted to the multi-valued
indices; `resolve_taxid` only ever forms it for the four validation levels.
For a name that is not a key of the `tax_data` dict the Python code would
raise, which the total model maps to an always-empty index (the fallible
model `byRankIndexE` makes the error explicit). -/
def byRankIndex (td : TaxData) (rank : String) : String → Option (List Lineage) :=
  if rank = "genus" then td.by_genus
  else if rank = "family" then td.by_family
  else if rank = "order" then td.by_order
  else if rank = "class" then td.by_class
  else if rank = "phylum" then td.by_phylum
  else fun _ => none

namespace TaxonomyResolver

/-- The loop body of `validate_against_higher_ranks` over `ranks_to_check`
(taxonomy_resolver.py lines 177-187): if the compared values are both truthy
the loop returns the lowercased equality immediately; otherwise it falls
through to the next rank and finally returns False. -/
def checkRanks (lineage : Lineage) (target_ranks : Query) : List String → Bool
  | [] => false
  | rank :: rest =>
    if pyTruthy (targetGet target_ranks rank) && pyTruthy (lineageGet lineage rank) then
      pyLower ((lineageGet lineage rank).getD "") == pyLower ((targetGet target_ranks rank).getD "")
    else checkRanks lineage target_ranks rest

/-- `validate_against_higher_ranks` of taxonomy_resolver.py (lines 154-187):
check the single rank selected by `validation_level`. -/
def validate_against_higher_ranks (lineage : Lineage) (target_ranks : Query)
    (validation_level : String) : Bool :=
  checkRanks lineage target_ranks (validation_ranks validation_level)

/-- The species-level attempt of `resolve_taxid` (taxonomy_resolver.py
lines 218-230): requires truthy species and genus, looks up the normalised
composite key, and on a hit accepts as soon as validation succeeds at some
level of `validation_levels`, returning a `species` match. -/
def species_attempt (target_ranks : Query) (tax_data : TaxData) : Option ResolveResult :=
  if target_ranks.species ≠ "" && target_ranks.genus ≠ "" then
    let species_key := species_query_key target_ranks.genus target_ranks.species
    match tax_data.by_species species_key with
    | some lineage =>
      if validation_levels.any
          (fun level => validate_against_higher_ranks lineage target_ranks level) then
        some (create_return_tuple lineage "species" false)
      else none
    | none => none
  else none

/-- The genus-level attempt of `resolve_taxid` (taxonomy_resolver.py
lines 232-240): iterate the candidates in file order and accept the first
one that validates at some level of `validation_levels`. -/
def genus_attempt (target_ranks : Query) (tax_data : TaxData) : Option ResolveResult :=
  if target_ranks.genus ≠ "" then
    match tax_data.by_genus (pyLower target_ranks.genus) with
    | some ms =>
      match ms.find?
          (fun lineage => validation_levels.any
            (fun level => validate_against_higher_ranks lineage target_ranks level)) with
      | some lineage => some (create_return_tuple lineage "genus" false)
      | none => none
    | none => none
  else none

/-- The rank-by-rank attempt of `resolve_taxid` (taxonomy_resolver.py
lines 242-251): for each rank in order, if the query value for that rank is
truthy and is a key of that rank's index, accept the first candidate that
validates at that same rank only. -/
def rank_attempt (target_ranks : Query) (tax_data : TaxData) : List String → Option ResolveResult
  | [] => none
  | rank :: rest =>
    if pyTruthy (targetGet target_ranks rank) then
      match byRankIndex tax_data rank (pyLower ((targetGet target_ranks rank).getD "")) with
      | some ms =>
        match ms.find?
            (fun lineage => validate_against_higher_ranks lineage target_ranks rank) with
        | some lineage => some (create_return_tuple lineage rank false)
        | none => rank_attempt target_ranks tax_data rest
      | none => rank_attempt target_ranks tax_data rest
    else rank_attempt target_ranks tax_data rest

/-- `resolve_taxid` of taxonomy_resolver.py (lines 190-253): species attempt,
then genus attempt, then the rank-by-rank attempt over `validation_levels`,
else the unmatched quadruple. -/
def resolve_taxid (phylum class_name order family genus species : String)
    (tax_data : TaxData) : ResolveResult :=
  let target_ranks : Query :=
    { phylum := phylum, class_name := class_name, order := order
      family := family, genus := genus, species := species }
  match species_attempt target_ranks tax_data with
  | some r => r
  | none =>
    match genus_attempt target_ranks tax_data with
    | some r => r
    | none =>
      match rank_attempt target_ranks tax_data validation_levels with
      | some r => r
      | none => (none, "unmatched", none, false)

end TaxonomyResolver

namespace TaxidFetcher

/-- The loop body of `validate_against_higher_ranks` of taxid_fetcher.py
(lines 187-204): fetch both values with `.get(rank, '')`, `continue` when
either is falsy (a stored Python `None` is falsy exactly like the default
empty string), otherwise return the lowercased equality.  The
`str(...)` conversions are identities on the string values modelled here. -/
def checkRanks (lineage : Lineage) (target_ranks : Query) : List String → Bool
  | [] => false
  | rank :: rest =>
    let target_value := (targetGet target_ranks rank).getD ""
    let lineage_value := (lineageGet lineage rank).getD ""
    if target_value == "" || lineage_value == "" then checkRanks lineage target_ranks rest
    else pyLower lineage_value == pyLower target_value

/-- `validate_against_higher_ranks` of taxid_fetcher.py (lines 163-204). -/
def validate_against_higher_ranks (lineage : Lineage) (target_ranks : Query)
    (validation_level : String) : Bool :=
  checkRanks lineage target_ranks (validation_ranks validation_level)

/-- The species-level attempt of taxid_fetcher.py `resolve_taxid`
(lines 235-251).  The `isinstance(..., str)` guards are identically true for
the string-typed queries modelled here, and the string operations in the
`try` block cannot raise on strings, so the `except` branch is dead. -/
def species_attempt (target_ranks : Query) (tax_data : TaxData) : Option ResolveResult :=
  if target_ranks.species ≠ "" && target_ranks.genus ≠ "" then
    let species_key := species_query_key target_ranks.genus target_ranks.species
    match tax_data.by_species species_key with
    | some lineage =>
      if validation_levels.any
          (fun level => validate_against_higher_ranks lineage target_ranks level) then
        some (create_return_tuple lineage "species" false)
      else none
    | none => none
  else none

/-- The genus-level attempt of taxid_fetcher.py `resolve_taxid`
(lines 253-265); `isinstance` guard and `try` block as in `species_attempt`. -/
def genus_attempt (target_ranks : Query) (tax_data : TaxData) : Option ResolveResult :=
  if target_ranks.genus ≠ "" then
    match tax_data.by_genus (pyLower target_ranks.genus) with
    | some ms =>
      match ms.find?
          (fun lineage => validation_levels.any
            (fun level => validate_against_higher_ranks lineage target_ranks level)) with
      | some lineage => some (create_return_tuple lineage "genus" false)
      | none => none
    | none => none
  else none

/-- The rank-by-rank attempt of taxid_fetcher.py `resolve_taxid`
(lines 267-280): `rank_value = target_ranks.get(rank, '')` with a truthiness
and `isinstance` guard, then the same first-validated-candidate search. -/
def rank_attempt (target_ranks : Query) (tax_data : TaxData) : List String → Option ResolveResult
  | [] => none
  | rank :: rest =>
    let rank_value := (targetGet target_ranks rank).getD ""
    if rank_value != "" then
      match byRankIndex tax_data rank (pyLower rank_value) with
      | some ms =>
        match ms.find?
            (fun lineage => validate_against_higher_ranks lineage target_ranks rank) with
        | some lineage => some (create_return_tuple lineage rank false)
        | none => rank_attempt target_ranks tax_data rest
      | none => rank_attempt target_ranks tax_data rest
    else rank_attempt target_ranks tax_data rest

/-- `resolve_taxid` of taxid_fetcher.py (lines 207-282). -/
def resolve_taxid (phylum class_name order family genus species : String)
    (tax_data : TaxData) : ResolveResult :=
  let target_ranks : Query :=
    { phylum := phylum, class_name := class_name, order := order
      family := family, genus := genus, species := species }
  match species_attempt target_ranks tax_data with
  | some r => r
  | none =>
    match genus_attempt target_ranks tax_data with
    | some r => r
    | none =>
      match rank_attempt target_ranks tax_data validation_levels with
      | some r => r
      | none => (none, "unmatched", none, false)

end TaxidFetcher

/-- Python dict subscription `d[k]`: the value when the key is present,
a `KeyError` otherwise.  Used by the fallible model of `resolve_taxid`,
which makes every raise point of the Python code explicit. -/
def dictGetE {α : Type} (d : String → Option α) (k : String) : Except String α :=
  match d k with
  | some v => Except.ok v
  | none => Except.error "KeyError"

namespace TaxonomyResolver

/-- Fallible model of the `validate_against_higher_ranks` loop: the
subscripts `target_ranks[rank]` and `lineage[rank]` can raise `KeyError`,
but are only evaluated after the `.get` truthiness guard. -/
def checkRanksE (lineage : Lineage) (target_ranks : Query) :
    List String → Except String Bool
  | [] => Except.ok false
  | rank :: rest =>
    if pyTruthy (targetGet target_ranks rank) && pyTruthy (lineageGet lineage rank) then
      match dictGetE (targetGet target_ranks) rank with
      | Except.error e => Except.error e
      | Except.ok target_value =>
        match dictGetE (lineageGet lineage) rank with
        | Except.error e => Except.error e
        | Except.ok lineage_value => Except.ok (pyLower lineage_value == pyLower target_value)
    else checkRanksE lineage target_ranks rest

/-- Fallible model of `validate_against_higher_ranks`. -/
def validate_against_higher_ranksE (lineage : Lineage) (target_ranks : Query)
    (validation_level : String) : Except String Bool :=
  checkRanksE lineage target_ranks (validation_ranks validation_level)

/-- The `for level in validation_levels: if validate(...)` loop of the
species and genus attempts, in the fallible model. -/
def anyValidateE (lineage : Lineage) (target_ranks : Query) :
    List String → Except String Bool
  | [] => Except.ok false
  | level :: rest =>
    match validate_against_higher_ranksE lineage target_ranks level with
    | Except.error e => Except.error e
    | Except.ok true => Except.ok true
    | Except.ok false => anyValidateE lineage target_ranks rest

/-- Fallible model of the species-level attempt: the Python code checks
`species_key in tax_data['by_species']` before subscripting. -/
def species_attemptE (target_ranks : Query) (tax_data : TaxData) :
    Except String (Option ResolveResult) :=
  if target_ranks.species ≠ "" && target_ranks.genus ≠ "" then
    let species_key := species_query_key target_ranks.genus target_ranks.species
    if (tax_data.by_species species_key).isSome then
      match dictGetE tax_data.by_species species_key with
      | Except.error e => Except.error e
      | Except.ok lineage =>
        match anyValidateE lineage target_ranks validation_levels with
        | Except.error e => Except.error e
        | Except.ok b =>
          Except.ok (if b then some (create_return_tuple lineage "species" false) else none)
    else Except.ok none
  else Except.ok none

/-- The `for lineage in matches` loop of the genus attempt, fallible model. -/
def genus_findE (target_ranks : Query) : List Lineage → Except String (Option ResolveResult)
  | [] => Except.ok none
  | lineage :: rest =>
    match anyValidateE lineage target_ranks validation_levels with
    | Except.error e => Except.error e
    | Except.ok true => Except.ok (some (create_return_tuple lineage "genus" false))
    | Except.ok false => genus_findE target_ranks rest

/-- Fallible model of the genus-level attempt. -/
def genus_attemptE (target_ranks : Query) (tax_data : TaxData) :
    Except String (Option ResolveResult) :=
  if target_ranks.genus ≠ "" then
    if (tax_data.by_genus (pyLower target_ranks.genus)).isSome then
      match dictGetE tax_data.by_genus (pyLower target_ranks.genus) with
      | Except.error e => Except.error e
      | Except.ok ms => genus_findE target_ranks ms
    else Except.ok none
  else Except.ok none

/-- Fallible model of the subscript `tax_data[f'by_{rank}']`: a `KeyError`
for any rank name outside the multi-valued indices of the `tax_data` dict. -/
def byRankIndexE (td : TaxData) (rank : String) :
    Except String (String → Option (List Lineage)) :=
  if rank = "genus" then Except.ok td.by_genus
  else if rank = "family" then Except.ok td.by_family
  else if rank = "order" then Except.ok td.by_order
  else if rank = "class" then Except.ok td.by_class
  else if rank = "phylum" then Except.ok td.by_phylum
  else Except.error "KeyError"

/-- The `for lineage in matches` loop of the rank-by-rank attempt,
fallible model. -/
def rank_findE (target_ranks : Query) (rank : String) :
    List Lineage → Except String (Option ResolveResult)
  | [] => Except.ok none
  | lineage :: rest =>
    match validate_against_higher_ranksE lineage target_ranks rank with
    | Except.error e => Except.error e
    | Except.ok true => Except.ok (some (create_return_tuple lineage rank false))
    | Except.ok false => rank_findE target_ranks rank rest

/-- Fallible model of the rank-by-rank attempt. -/
def rank_attemptE (target_ranks : Query) (tax_data : TaxData) :
    List String → Except String (Option ResolveResult)
  | [] => Except.ok none
  | rank :: rest =>
    if pyTruthy (targetGet target_ranks rank) then
      match byRankIndexE tax_data rank with
      | Except.error e => Except.error e
      | Except.ok idx =>
        if (idx (pyLower ((targetGet target_ranks rank).getD ""))).isSome then
          match dictGetE idx (pyLower ((targetGet target_ranks rank).getD "")) with
          | Except.error e => Except.error e
          | Except.ok ms =>
            match rank_findE target_ranks rank ms with
            | Except.error e => Except.error e
            | Except.ok (some r) => Except.ok (some r)
            | Except.ok none => rank_attemptE target_ranks tax_data rest
        else rank_attemptE target_ranks tax_data rest
    else rank_attemptE target_ranks tax_data rest

/-- Fallible model of `resolve_taxid`, with every Python dict subscription
modelled as a possible `KeyError`. -/
def resolve_taxidE (phylum class_name order family genus species : String)
    (tax_data : TaxData) : Except String ResolveResult :=
  let target_ranks : Query :=
    { phylum := phylum, class_name := class_name, order := order
      family := family, genus := genus, species := species }
  match species_attemptE target_ranks tax_data with
  | Except.error e => Except.error e
  | Except.ok (some r) => Except.ok r
  | Except.ok none =>
    match genus_attemptE target_ranks tax_data with
    | Except.error e => Except.error e
    | Except.ok (some r) => Except.ok r
    | Except.ok none =>
      match rank_attemptE target_ranks tax_data validation_levels with
      | Except.error e => Except.error e
      | Except.ok (some r) => Except.ok r
      | Except.ok none => Except.ok (none, "unmatched", none, false)

end TaxonomyResolver

/-- A property of `tax_data` dictionaries preserved by the build loop. -/
theorem load_inv (P : TaxData → Prop) (h0 : P emptyTaxData)
    (hstep : ∀ td line, P td → P (processLine td line)) (lines : List String) :
    P (load_rankedlineage lines) := by
  have h : ∀ (ls : List String) (td : TaxData), P td → P (ls.foldl processLine td) := by
    intro ls
    induction ls with
    | nil => exact fun td h => h
    | cons a rest ih => exact fun td h => ih _ (hstep td a h)
  exact h lines emptyTaxData h0

/-- Concrete reference line used by the witnesses: the `Homo sapiens`
example row from the specification, with kingdom `Metazoa` filled in. -/
def homoLine : String :=
  "9606|Homo sapiens|Homo sapiens|Homo|Hominidae|Primates|Mammalia|Chordata|Metazoa|Eukaryota"

/-- The record `load_rankedlineage` builds from `homoLine`. -/
def rec0 : Lineage :=
  { taxid := "9606", scientific_name := "Homo sapiens", species := some "sapiens"
    genus := "Homo", family := "Hominidae", order := "Primates"
    class_name := "Mammalia", phylum := "Chordata", kingdom := "Metazoa"
    superkingdom := "Eukaryota" }

/-- Index built from the single `homoLine` row. -/
def td0 : TaxData := load_rankedlineage [homoLine]

/-- A reference line whose genus and family fields are the literal string
`not collected`. -/
def ncLine : String := "7|Foo||not collected|not collected|o|c|p|k|sk"

/-- A record whose derived species is Python `None`. -/
def ncRec : Lineage :=
  { taxid := "7", scientific_name := "Foo", species := none
    genus := "not collected", family := "not collected", order := "o"
    class_name := "c", phylum := "p", kingdom := "k", superkingdom := "sk" }

/-- A reference line whose species field carries the uncertainty marker
`sp.`, so its derived species is discarded. -/
def spLine : String := "1|Genus sp.|Genus sp.|Genus|Fam|Ord|Cls|Phy|King|Euk"

/-- Two reference lines sharing the same lowercased scientific name
`abc def` but different taxids. -/
def dupLineA : String := "1|Abc def|Abc def|Abc|FamA|OrdA|ClsA|PhyA|KingA|EukA"

/-- Second line with the colliding scientific-name key; this one must win. -/
def dupLineB : String := "2|ABC DEF|ABC xdef|ABC|FamB|OrdB|ClsB|PhyB|KingB|EukB"

/-- The record `load_rankedlineage` builds from `dupLineB`. -/
def dupRecB : Lineage :=
  { taxid := "2", scientific_name := "ABC DEF", species := some "xdef"
    genus := "ABC", family := "FamB", order := "OrdB"
    class_name := "ClsB", phylum := "PhyB", kingdom := "KingB", superkingdom := "EukB" }

/-- Unfolding of `resolve_taxid` to its three-attempt cascade. -/
theorem resolve_taxid_TR_eq (p c o f g s : String) (td : TaxData) :
    TaxonomyResolver.resolve_taxid p c o f g s td =
      match TaxonomyResolver.species_attempt ⟨p, c, o, f, g, s⟩ td with
      | some r => r
      | none =>
        match TaxonomyResolver.genus_attempt ⟨p, c, o, f, g, s⟩ td with
        | some r => r
        | none =>
          match TaxonomyResolver.rank_attempt ⟨p, c, o, f, g, s⟩ td validation_levels with
          | some r => r
          | none => (none, "unmatched", none, false) := rfl

/-- Unfolding of the duplicated `resolve_taxid` of taxid_fetcher.py. -/
theorem resolve_taxid_TF_eq (p c o f g s : String) (td : TaxData) :
    TaxidFetcher.resolve_taxid p c o f g s td =
      match TaxidFetcher.species_attempt ⟨p, c, o, f, g, s⟩ td with
      | some r => r
      | none =>
        match TaxidFetcher.genus_attempt ⟨p, c, o, f, g, s⟩ td with
        | some r => r
        | none =>
          match TaxidFetcher.rank_attempt ⟨p, c, o, f, g, s⟩ td validation_levels with
          | some r => r
          | none => (none, "unmatched", none, false) := rfl

/-- Projection of `insertRecord` at the scientific-name index. -/
theorem insertRecord_by_sci (td : TaxData) (r : Lineage) :
    (insertRecord td r).by_scientific_name =
      mapInsert td.by_scientific_name (pyLower r.scientific_name) r := rfl

/-- Projection of `insertRecord` at the species index. -/
theorem insertRecord_by_species (td : TaxData) (r : Lineage) :
    (insertRecord td r).by_species =
      match r.species with
      | some s =>
          if s ≠ "" && r.genus ≠ "" then
            mapInsert td.by_species (pyLower r.genus ++ " " ++ pyLower s) r
          else td.by_species
      | none => td.by_species := rfl

/-- A successful species attempt reports rank `species` and a false flag. -/
theorem species_attempt_matched (q : Query) (td : TaxData) (r : ResolveResult)
    (h : TaxonomyResolver.species_attempt q td = some r) :
    r.2.1 = "species" ∧ r.2.2.2 = false := by
  unfold TaxonomyResolver.species_attempt at h
  split at h
  · dsimp only at h
    split at h
    · split at h
      · cases h; exact ⟨rfl, rfl⟩
      · cases h
    · cases h
  · cases h

/-- A successful genus attempt reports rank `genus` and a false flag. -/
theorem genus_attempt_matched (q : Query) (td : TaxData) (r : ResolveResult)
    (h : TaxonomyResolver.genus_attempt q td = some r) :
    r.2.1 = "genus" ∧ r.2.2.2 = false := by
  unfold TaxonomyResolver.genus_attempt at h
  split at h
  · split at h
    · split at h
      · cases h; exact ⟨rfl, rfl⟩
      · cases h
    · cases h
  · cases h

/-- A successful rank-by-rank attempt reports one of the attempted ranks
and a false flag. -/
theorem rank_attempt_matched (q : Query) (td : TaxData) :
    ∀ (ranks : List String) (r : ResolveResult),
      TaxonomyResolver.rank_attempt q td ranks = some r →
      ∃ rank ∈ ranks, r.2.1 = rank ∧ r.2.2.2 = false := by
  intro ranks
  induction ranks with
  | nil => intro r h; cases h
  | cons rank rest ih =>
    intro r h
    unfold TaxonomyResolver.rank_attempt at h
    split at h
    · split at h
      · split at h
        · cases h; exact ⟨rank, by simp, rfl, rfl⟩
        · obtain ⟨rk, hrk, h1, h2⟩ := ih r h
          exact ⟨rk, by simp [hrk], h1, h2⟩
      · obtain ⟨rk, hrk, h1, h2⟩ := ih r h
        exact ⟨rk, by simp [hrk], h1, h2⟩
    · obtain ⟨rk, hrk, h1, h2⟩ := ih r h
      exact ⟨rk, by simp [hrk], h1, h2⟩

/-- `find?` returns the head when the predicate holds everywhere. -/
theorem find?_eq_head? {α : Type} (p : α → Bool) (l : List α)
    (h : ∀ x ∈ l, p x = true) : l.find? p = l.head? := by
  cases l with
  | nil => rfl
  | cons a as => simp [List.find?_cons, h a (List.mem_cons_self a as)]

/-- `getLast?` of a cons, as a total expression. -/
theorem getLast?_cons_eq {α : Type} (a : α) (l : List α) :
    (a :: l).getLast? = some ((l.getLast?).getD a) := by
  induction l generalizing a with
  | nil => rfl
  | cons b bs ih => rw [List.getLast?_cons_cons, ih b]; simp

/-- The scientific-name index after the build loop holds, at each key, the
record of the last parsed line whose lowercased scientific name is that key,
falling back to the initial dictionary. -/
theorem foldl_by_sci (lines : List String) (td : TaxData) (k : String) :
    (lines.foldl processLine td).by_scientific_name k =
      match ((lines.filterMap parseLine).filter
          (fun r => pyLower r.scientific_name == k)).getLast? with
      | some r => some r
      | none => td.by_scientific_name k := by
  induction lines generalizing td with
  | nil => rfl
  | cons a rest ih =>
    simp only [List.foldl_cons, List.filterMap_cons]
    cases hpa : parseLine a with
    | none => simp only [processLine, hpa]; exact ih td
    | some r =>
      simp only [processLine, hpa]
      rw [ih (insertRecord td r)]
      by_cases hpr : (pyLower r.scientific_name == k) = true
      · simp only [List.filter_cons, hpr, if_pos]
        rw [getLast?_cons_eq]
        cases hX : ((rest.filterMap parseLine).filter
            (fun r => pyLower r.scientific_name == k)).getLast? with
        | some r' => simp [hX]
        | none =>
          simp only [hX, Option.getD_none]
          have hk : k = pyLower r.scientific_name := (eq_of_beq hpr).symm
          simp [insertRecord_by_sci, mapInsert, hk]
      · simp only [List.filter_cons, hpr]
        have hk : ¬(k = pyLower r.scientific_name) := by
          intro hkk; exact hpr (by simp [hkk])
        cases hX : ((rest.filterMap parseLine).filter
            (fun r => pyLower r.scientific_name == k)).getLast? with
        | some r' => simp [hX]
        | none => simp [hX, insertRecord_by_sci, mapInsert, hk]

/-- The validity invariant of one multi-valued index with respect to the
rank field it is keyed by: every stored list is non-empty and consists of
records whose field is truthy and lowercases to the key. -/
def MultiInvAt (idx : String → Option (List Lineage)) (fld : Lineage → String) : Prop :=
  ∀ k ms, idx k = some ms →
    ms ≠ [] ∧ ∀ l ∈ ms, fld l ≠ "" ∧ pyLower (fld l) = k

/-- `multiInsert` at the lowercased field of the inserted record preserves
the index invariant. -/
theorem multiInsert_pres (idx : String → Option (List Lineage)) (fld : Lineage → String)
    (h : MultiInvAt idx fld) (r : Lineage) (hr : fld r ≠ "") :
    MultiInvAt (multiInsert idx (pyLower (fld r)) r) fld := by
  intro k ms hms
  simp only [multiInsert] at hms
  by_cases hk : k = pyLower (fld r)
  · rw [if_pos hk] at hms
    cases hms
    refine ⟨by simp, ?_⟩
    intro l hl
    rcases List.mem_append.mp hl with h1 | h2
    · cases ho : idx (pyLower (fld r)) with
      | none => rw [ho] at h1; simp at h1
      | some ms0 =>
        rw [ho] at h1
        simp only [Option.getD_some] at h1
        obtain ⟨hne, hmem⟩ := h _ _ ho
        obtain ⟨ha, hb⟩ := hmem l h1
        exact ⟨ha, by rw [hb, hk]⟩
    · simp only [List.mem_singleton] at h2
      subst h2
      exact ⟨hr, hk.symm⟩
  · rw [if_neg hk] at hms
    exact h k ms hms

/-- The four rank indices of a built `tax_data` satisfy their invariants. -/
theorem load_multiInv (lines : List String) :
    MultiInvAt (load_rankedlineage lines).by_family (fun l => l.family) ∧
    MultiInvAt (load_rankedlineage lines).by_order (fun l => l.order) ∧
    MultiInvAt (load_rankedlineage lines).by_class (fun l => l.class_name) ∧
    MultiInvAt (load_rankedlineage lines).by_phylum (fun l => l.phylum) := by
  refine load_inv (fun td =>
    MultiInvAt td.by_family (fun l => l.family) ∧
    MultiInvAt td.by_order (fun l => l.order) ∧
    MultiInvAt td.by_class (fun l => l.class_name) ∧
    MultiInvAt td.by_phylum (fun l => l.phylum)) ?_ ?_ lines
  · refine ⟨?_, ?_, ?_, ?_⟩ <;> · intro k ms h; simp [emptyTaxData] at h
  · intro td line hP
    obtain ⟨h1, h2, h3, h4⟩ := hP
    cases hpl : parseLine line with
    | none => simp only [processLine, hpl]; exact ⟨h1, h2, h3, h4⟩
    | some r =>
      simp only [processLine, hpl]
      refine ⟨?_, ?_, ?_, ?_⟩
      · show MultiInvAt (insertRecord td r).by_family (fun l => l.family)
        simp only [insertRecord]
        split
        · exact multiInsert_pres td.by_family (fun l => l.family) h1 r (by assumption)
        · exact h1
      · show MultiInvAt (insertRecord td r).by_order (fun l => l.order)
        simp only [insertRecord]
        split
        · exact multiInsert_pres td.by_order (fun l => l.order) h2 r (by assumption)
        · exact h2
      · show MultiInvAt (insertRecord td r).by_class (fun l => l.class_name)
        simp only [insertRecord]
        split
        · exact multiInsert_pres td.by_class (fun l => l.class_name) h3 r (by assumption)
        · exact h3
      · show MultiInvAt (insertRecord td r).by_phylum (fun l => l.phylum)
        simp only [insertRecord]
        split
        · exact multiInsert_pres td.by_phylum (fun l => l.phylum) h4 r (by assumption)
        · exact h4

/-- The survivor of the marker filter never contains a marker. -/
theorem deriveSpecies_marker_free (a b c s : String)
    (h : deriveSpecies a b c = some s) (hne : s ≠ "") :
    hasMarker (pyLower s) = false := by
  unfold deriveSpecies at h
  cases hraw : deriveSpeciesRaw a b c with
  | none => rw [hraw] at h; cases h
  | some t =>
    rw [hraw] at h
    dsimp only at h
    by_cases hc : (decide (t ≠ "") && hasMarker (pyLower t)) = true
    · rw [if_pos hc] at h; cases h
    · rw [if_neg hc] at h
      have hc' : decide (t ≠ "") = false ∨ hasMarker (pyLower t) = false := by
        cases hd : decide (t ≠ "") <;> cases hm : hasMarker (pyLower t) <;> simp_all
      cases h
      rcases hc' with h' | h'
      · exact absurd hne (of_decide_eq_false h')
      · exact h'

/-- The species entry of a parsed record is an output of `deriveSpecies`,
so a truthy species never contains a marker. -/
theorem parseLine_species_marker_free (line : String) (r : Lineage)
    (h : parseLine line = some r) (s : String) (hs : r.species = some s)
    (hne : s ≠ "") : hasMarker (pyLower s) = false := by
  unfold parseLine at h
  dsimp only at h
  split at h
  · cases h
  · cases h
    exact deriveSpecies_marker_free _ _ _ s hs hne

/-- Invariant of the species index over the build loop: every stored record
has a truthy, marker-free species, and the key is the lowercased
genus-species composite of that record. -/
theorem load_by_species_inv (lines : List String) (k : String) (rec : Lineage)
    (h : (load_rankedlineage lines).by_species k = some rec) :
    ∃ s, rec.species = some s ∧ s ≠ "" ∧ hasMarker (pyLower s) = false ∧
      k = pyLower rec.genus ++ " " ++ pyLower s := by
  refine load_inv (fun td => ∀ k rec, td.by_species k = some rec →
    ∃ s, rec.species = some s ∧ s ≠ "" ∧ hasMarker (pyLower s) = false ∧
      k = pyLower rec.genus ++ " " ++ pyLower s) ?_ ?_ lines k rec h
  · intro k rec hk; simp [emptyTaxData] at hk
  · intro td line hP k rec hk
    cases hpl : parseLine line with
    | none => rw [processLine, hpl] at hk; exact hP k rec hk
    | some l =>
      rw [processLine, hpl] at hk
      rw [insertRecord_by_species] at hk
      cases hls : l.species with
      | none => rw [hls] at hk; exact hP k rec hk
      | some s0 =>
        rw [hls] at hk
        dsimp only at hk
        split at hk
        · simp only [mapInsert] at hk
          split at hk
          · cases hk
            have hguard : (decide (s0 ≠ "") && decide (rec.genus ≠ "")) = true := by assumption
            have hs0 : s0 ≠ "" := of_decide_eq_true (Bool.and_elim_left hguard)
            refine ⟨s0, hls, hs0, ?_, by assumption⟩
            exact parseLine_species_marker_free line rec hpl s0 hls hs0
          · exact hP k rec hk
        · exact hP k rec hk

/-- The two validation loops agree rank list by rank list. -/
theorem checkRanks_TF_eq (l : Lineage) (q : Query) (ranks : List String) :
    TaxidFetcher.checkRanks l q ranks = TaxonomyResolver.checkRanks l q ranks := by
  induction ranks with
  | nil => rfl
  | cons rank rest ih =>
    simp only [TaxidFetcher.checkRanks, TaxonomyResolver.checkRanks, pyTruthy]
    by_cases h1 : (targetGet q rank).getD "" = ""
    · simp [h1, ih]
    · by_cases h2 : (lineageGet l rank).getD "" = ""
      · simp [h1, h2, ih]
      · simp [h1, h2]

/-- The two `validate_against_higher_ranks` implementations agree. -/
theorem validate_TF_eq (l : Lineage) (q : Query) (lvl : String) :
    TaxidFetcher.validate_against_higher_ranks l q lvl =
      TaxonomyResolver.validate_against_higher_ranks l q lvl :=
  checkRanks_TF_eq l q (validation_ranks lvl)

/-- The two species attempts agree. -/
theorem species_attempt_TF_eq (q : Query) (td : TaxData) :
    TaxidFetcher.species_attempt q td = TaxonomyResolver.species_attempt q td := by
  simp only [TaxidFetcher.species_attempt, TaxonomyResolver.species_attempt, validate_TF_eq]

/-- The two genus attempts agree. -/
theorem genus_attempt_TF_eq (q : Query) (td : TaxData) :
    TaxidFetcher.genus_attempt q td = TaxonomyResolver.genus_attempt q td := by
  simp only [TaxidFetcher.genus_attempt, TaxonomyResolver.genus_attempt, validate_TF_eq]

/-- The two rank-by-rank attempts agree. -/
theorem rank_attempt_TF_eq (q : Query) (td : TaxData) (ranks : List String) :
    TaxidFetcher.rank_attempt q td ranks = TaxonomyResolver.rank_attempt q td ranks := by
  induction ranks with
  | nil => rfl
  | cons rank rest ih =>
    simp only [TaxidFetcher.rank_attempt, TaxonomyResolver.rank_attempt, validate_TF_eq,
      pyTruthy, ih]

/-- The guarded subscripts of the validation loop never raise. -/
theorem checkRanksE_ok (l : Lineage) (q : Query) (ranks : List String) :
    TaxonomyResolver.checkRanksE l q ranks =
      Except.ok (TaxonomyResolver.checkRanks l q ranks) := by
  induction ranks with
  | nil => rfl
  | cons rank rest ih =>
    simp only [TaxonomyResolver.checkRanksE, TaxonomyResolver.checkRanks]
    by_cases h : (pyTruthy (targetGet q rank) && pyTruthy (lineageGet l rank)) = true
    · rw [if_pos h, if_pos h]
      have h1 : pyTruthy (targetGet q rank) = true := Bool.and_elim_left h
      have h2 : pyTruthy (lineageGet l rank) = true := Bool.and_elim_right h
      cases hto : targetGet q rank with
      | none => rw [hto] at h1; simp [pyTruthy] at h1
      | some tv =>
        cases hlo : lineageGet l rank with
        | none => rw [hlo] at h2; simp [pyTruthy] at h2
        | some lv => simp [dictGetE, hto, hlo]
    · rw [if_neg h, if_neg h]; exact ih

/-- The fallible validation predicate never raises. -/
theorem validateE_ok (l : Lineage) (q : Query) (lvl : String) :
    TaxonomyResolver.validate_against_higher_ranksE l q lvl =
      Except.ok (TaxonomyResolver.validate_against_higher_ranks l q lvl) :=
  checkRanksE_ok l q (validation_ranks lvl)

/-- The fallible validation-level loop never raises and agrees with `any`. -/
theorem anyValidateE_ok (l : Lineage) (q : Query) (levels : List String) :
    TaxonomyResolver.anyValidateE l q levels =
      Except.ok (levels.any
        (fun level => TaxonomyResolver.validate_against_higher_ranks l q level)) := by
  induction levels with
  | nil => rfl
  | cons lvl rest ih =>
    simp only [TaxonomyResolver.anyValidateE, validateE_ok, List.any_cons]
    cases hb : TaxonomyResolver.validate_against_higher_ranks l q lvl with
    | true => rfl
    | false => simp [ih]

/-- The fallible species attempt never raises. -/
theorem species_attemptE_ok (q : Query) (td : TaxData) :
    TaxonomyResolver.species_attemptE q td =
      Except.ok (TaxonomyResolver.species_attempt q td) := by
  simp only [TaxonomyResolver.species_attemptE, TaxonomyResolver.species_attempt]
  split
  · cases hsp : td.by_species (species_query_key q.genus q.species) with
    | none => simp [hsp, dictGetE]
    | some l => simp [hsp, dictGetE, anyValidateE_ok]
  · rfl

/-- The fallible genus candidate loop never raises. -/
theorem genus_findE_ok (q : Query) (ms : List Lineage) :
    TaxonomyResolver.genus_findE q ms =
      Except.ok
        (match ms.find? (fun lineage => validation_levels.any
            (fun level => TaxonomyResolver.validate_against_higher_ranks lineage q level)) with
         | some lineage => some (create_return_tuple lineage "genus" false)
         | none => none) := by
  induction ms with
  | nil => rfl
  | cons l rest ih =>
    simp only [TaxonomyResolver.genus_findE, anyValidateE_ok, List.find?_cons]
    cases hb : validation_levels.any
        (fun level => TaxonomyResolver.validate_against_higher_ranks l q level) with
    | true => rfl
    | false => simp [ih]

/-- The fallible genus attempt never raises. -/
theorem genus_attemptE_ok (q : Query) (td : TaxData) :
    TaxonomyResolver.genus_attemptE q td =
      Except.ok (TaxonomyResolver.genus_attempt q td) := by
  simp only [TaxonomyResolver.genus_attemptE, TaxonomyResolver.genus_attempt]
  split
  · cases hg : td.by_genus (pyLower q.genus) with
    | none => simp [hg, dictGetE]
    | some ms => simp [hg, dictGetE, genus_findE_ok]
  · rfl

/-- The `tax_data[f'by_{rank}']` subscript never raises for the four
validation levels. -/
theorem byRankIndexE_ok_of_mem (td : TaxData) (rank : String)
    (h : rank ∈ validation_levels) :
    TaxonomyResolver.byRankIndexE td rank = Except.ok (byRankIndex td rank) := by
  simp only [validation_levels, List.mem_cons, List.mem_singleton] at h
  rcases h with rfl | rfl | rfl | rfl | h
  · rfl
  · rfl
  · rfl
  · rfl
  · simp at h

/-- The fallible rank candidate loop never raises. -/
theorem rank_findE_ok (q : Query) (rank : String) (ms : List Lineage) :
    TaxonomyResolver.rank_findE q rank ms =
      Except.ok
        (match ms.find? (fun lineage =>
            TaxonomyResolver.validate_against_higher_ranks lineage q rank) with
         | some lineage => some (create_return_tuple lineage rank false)
         | none => none) := by
  induction ms with
  | nil => rfl
  | cons l rest ih =>
    simp only [TaxonomyResolver.rank_findE, validateE_ok, List.find?_cons]
    cases hb : TaxonomyResolver.validate_against_higher_ranks l q rank with
    | true => rfl
    | false => simp [ih]

/-- The fallible rank-by-rank attempt never raises when every attempted
rank has a `by_` index in the `tax_data` dict. -/
theorem rank_attemptE_ok (q : Query) (td : TaxData) (ranks : List String)
    (h : ∀ r ∈ ranks, r ∈ validation_levels) :
    TaxonomyResolver.rank_attemptE q td ranks =
      Except.ok (TaxonomyResolver.rank_attempt q td ranks) := by
  induction ranks with
  | nil => rfl
  | cons rank rest ih =>
    have hhead : rank ∈ validation_levels := h rank (List.mem_cons_self rank rest)
    have htail : ∀ r ∈ rest, r ∈ validation_levels :=
      fun r hr => h r (List.mem_cons_of_mem rank hr)
    simp only [TaxonomyResolver.rank_attemptE, TaxonomyResolver.rank_attempt,
      byRankIndexE_ok_of_mem td rank hhead]
    split
    · cases hidx : byRankIndex td rank (pyLower ((targetGet q rank).getD "")) with
      | none => simp [hidx, dictGetE, ih htail]
      | some ms =>
        simp only [hidx, dictGetE, Option.isSome_some, if_pos, rank_findE_ok]
        cases hf : ms.find? (fun lineage =>
            TaxonomyResolver.validate_against_higher_ranks lineage q rank) with
        | some l => simp [hf]
        | none => simp [hf, ih htail]
    · exact ih htail

/-- Unfolding of the fallible `resolve_taxidE` to its attempt cascade. -/
theorem resolve_taxidE_TR_eq (p c o f g s : String) (td : TaxData) :
    TaxonomyResolver.resolve_taxidE p c o f g s td =
      match TaxonomyResolver.species_attemptE ⟨p, c, o, f, g, s⟩ td with
      | Except.error e => Except.error e
      | Except.ok (some r) => Except.ok r
      | Except.ok none =>
        match TaxonomyResolver.genus_attemptE ⟨p, c, o, f, g, s⟩ td with
        | Except.error e => Except.error e
        | Except.ok (some r) => Except.ok r
        | Except.ok none =>
          match TaxonomyResolver.rank_attemptE ⟨p, c, o, f, g, s⟩ td validation_levels with
          | Except.error e => Except.error e
          | Except.ok (some r) => Except.ok r
          | Except.ok none => Except.ok (none, "unmatched", none, false) := rfl

/-- The four validation levels are neither `species` nor `genus`. -/
theorem mem_validation_levels_ne (rk : String) (h : rk ∈ validation_levels) :
    rk ≠ "species" ∧ rk ≠ "genus" := by
  simp only [validation_levels, List.mem_cons, List.not_mem_nil, or_false] at h
  rcases h with rfl | rfl | rfl | rfl <;> exact ⟨by decide, by decide⟩

/-- Claim C8: for every well-formed query (six string rank values) and every
index, the duplicated engine implementations in taxonomy_resolver.py and
taxid_fetcher.py return identical result 4-tuples (taxid, matchedRank,
lineage string, mismatch flag).  This is proved for every `tax_data`
dictionary whatsoever, hence in particular for the indexes both scripts
build from the same reference stream with their line-for-line identical
`load_rankedlineage`. -/
theorem C8_duplicated_engines_agree (p c o f g s : String) (td : TaxData) :
    TaxidFetcher.resolve_taxid p c o f g s td =
      TaxonomyResolver.resolve_taxid p c o f g s td := by
  rw [resolve_taxid_TF_eq, resolve_taxid_TR_eq,
    species_attempt_TF_eq, genus_attempt_TF_eq, rank_attempt_TF_eq]

/-- Claim C9: for every well-formed query (six string rank values) and every
built index, resolve never raises: the fallible model, in which every
Python dict subscription is an explicit possible `KeyError`, always returns
`Except.ok` of the result quadruple of the total model. -/
theorem C9_resolve_never_raises (p c o f g s : String) (td : TaxData) :
    TaxonomyResolver.resolve_taxidE p c o f g s td =
      Except.ok (TaxonomyResolver.resolve_taxid p c o f g s td) := by
  rw [resolve_taxidE_TR_eq, resolve_taxid_TR_eq,
    species_attemptE_ok, genus_attemptE_ok,
    rank_attemptE_ok _ _ _ (fun r hr => hr)]
  cases h1 : TaxonomyResolver.species_attempt ⟨p, c, o, f, g, s⟩ td with
  | some r => rfl
  | none =>
    cases h2 : TaxonomyResolver.genus_attempt ⟨p, c, o, f, g, s⟩ td with
    | some r => rfl
    | none =>
      cases h3 : TaxonomyResolver.rank_attempt ⟨p, c, o, f, g, s⟩ td validation_levels with
      | some r => rfl
      | none => rfl

/-- Claim C10: for every query and every index, the mismatch-flag component
of the result of `resolve_taxid` is false on every execution path. -/
theorem C10_mismatch_flag_always_false (p c o f g s : String) (td : TaxData) :
    (TaxonomyResolver.resolve_taxid p c o f g s td).2.2.2 = false := by
  rw [resolve_taxid_TR_eq]
  cases h1 : TaxonomyResolver.species_attempt ⟨p, c, o, f, g, s⟩ td with
  | some r => exact (species_attempt_matched _ _ _ h1).2
  | none =>
    cases h2 : TaxonomyResolver.genus_attempt ⟨p, c, o, f, g, s⟩ td with
    | some r => exact (genus_attempt_matched _ _ _ h2).2
    | none =>
      cases h3 : TaxonomyResolver.rank_attempt ⟨p, c, o, f, g, s⟩ td validation_levels with
      | some r =>
        obtain ⟨rk, _, _, hf⟩ := rank_attempt_matched _ _ _ _ h3
        exact hf
      | none => rfl

/-- Claim C1, counterexample: with the single `Homo sapiens` reference row,
the query (order `Primates`, family `WrongFam`, genus `Homo`, species
`sapiens`) hits the species index, the single validation check at rank
`family` fails for the candidate, and yet the species-level attempt accepts
it (the loop falls through and validates at `order`).  This refutes the
claim that acceptance happens exactly when the family check succeeds and
that the attempt never falls through to order, class, or phylum. -/
theorem C1_counterexample :
    td0.by_species (species_query_key "Homo" "sapiens") = some rec0
    ∧ TaxonomyResolver.validate_against_higher_ranks rec0
        ⟨"", "", "Primates", "WrongFam", "Homo", "sapiens"⟩ "family" = false
    ∧ (TaxonomyResolver.resolve_taxid "" "" "Primates" "WrongFam" "Homo" "sapiens" td0).2.1
        = "species" := by decide

/-- Claim C1, amended: for a query providing both genus and species
(respectively genus alone), the species-level (respectively genus-level)
attempt accepts exactly when the single-rank validation succeeds at SOME
level among family, order, class, phylum, tried in that order: the attempt
does fall through to order, class and phylum when the family check fails. -/
theorem C1_species_genus_validation (p c o f g s : String) (td : TaxData) :
    (s ≠ "" → g ≠ "" → ∀ l, td.by_species (species_query_key g s) = some l →
      ((TaxonomyResolver.resolve_taxid p c o f g s td).2.1 = "species" ↔
        (validation_levels.any fun level =>
          TaxonomyResolver.validate_against_higher_ranks l ⟨p, c, o, f, g, s⟩ level) = true))
    ∧ (g ≠ "" → s = "" → ∀ ms, td.by_genus (pyLower g) = some ms →
      ((TaxonomyResolver.resolve_taxid p c o f g s td).2.1 = "genus" ↔
        (ms.any fun l => validation_levels.any fun level =>
          TaxonomyResolver.validate_against_higher_ranks l ⟨p, c, o, f, g, s⟩ level) = true)) := by
  constructor
  · intro hs hg l hl
    rw [resolve_taxid_TR_eq]
    have hsa : TaxonomyResolver.species_attempt ⟨p, c, o, f, g, s⟩ td =
        (if (validation_levels.any fun level =>
              TaxonomyResolver.validate_against_higher_ranks l ⟨p, c, o, f, g, s⟩ level) = true
         then some (create_return_tuple l "species" false) else none) := by
      unfold TaxonomyResolver.species_attempt
      rw [if_pos (by simp [hs, hg])]
      dsimp only
      rw [hl]
    rw [hsa]
    by_cases hany : (validation_levels.any fun level =>
        TaxonomyResolver.validate_against_higher_ranks l ⟨p, c, o, f, g, s⟩ level) = true
    · rw [if_pos hany]
      simp [create_return_tuple, hany]
    · rw [if_neg hany]
      simp only [Bool.not_eq_true] at hany
      cases h2 : TaxonomyResolver.genus_attempt ⟨p, c, o, f, g, s⟩ td with
      | some r =>
        have := (genus_attempt_matched _ _ _ h2).1
        simp [this, hany]
      | none =>
        cases h3 : TaxonomyResolver.rank_attempt ⟨p, c, o, f, g, s⟩ td validation_levels with
        | some r =>
          obtain ⟨rk, hrk, h1, _⟩ := rank_attempt_matched _ _ _ _ h3
          have hne := (mem_validation_levels_ne rk hrk).1
          simp [h1, hne, hany]
        | none => simp [hany]
  · intro hg hs ms hms
    subst hs
    rw [resolve_taxid_TR_eq]
    have hsa : TaxonomyResolver.species_attempt ⟨p, c, o, f, g, ""⟩ td = none := by
      unfold TaxonomyResolver.species_attempt
      rw [if_neg (by simp)]
    rw [hsa]
    have hga : TaxonomyResolver.genus_attempt ⟨p, c, o, f, g, ""⟩ td =
        (match ms.find? (fun lineage => validation_levels.any fun level =>
            TaxonomyResolver.validate_against_higher_ranks lineage ⟨p, c, o, f, g, ""⟩ level) with
         | some lineage => some (create_return_tuple lineage "genus" false)
         | none => none) := by
      unfold TaxonomyResolver.genus_attempt
      rw [if_pos (by simp [hg])]
      dsimp only
      rw [hms]
    rw [hga]
    cases hf : ms.find? (fun lineage => validation_levels.any fun level =>
        TaxonomyResolver.validate_against_higher_ranks lineage ⟨p, c, o, f, g, ""⟩ level) with
    | some l0 =>
      have hmem := List.mem_of_find?_eq_some hf
      have hp := List.find?_some hf
      have hany : (ms.any fun l => validation_levels.any fun level =>
          TaxonomyResolver.validate_against_higher_ranks l ⟨p, c, o, f, g, ""⟩ level) = true :=
        List.any_eq_true.mpr ⟨l0, hmem, hp⟩
      simp [create_return_tuple, hany]
    | none =>
      have hall := List.find?_eq_none.mp hf
      have hany : (ms.any fun l => validation_levels.any fun level =>
          TaxonomyResolver.validate_against_higher_ranks l ⟨p, c, o, f, g, ""⟩ level) = false := by
        rw [Bool.eq_false_iff]
        intro hcontra
        obtain ⟨x, hx, hpx⟩ := List.any_eq_true.mp hcontra
        exact hall x hx hpx
      cases h3 : TaxonomyResolver.rank_attempt ⟨p, c, o, f, g, ""⟩ td validation_levels with
      | some r =>
        obtain ⟨rk, hrk, h1, _⟩ := rank_attempt_matched _ _ _ _ h3
        have hne := (mem_validation_levels_ne rk hrk).2
        simp [h1, hne, hany]
      | none => simp [hany]

/-- Claim C1, witness: both branches of the amended theorem applied to the
`Homo sapiens` index, with acceptance through the fallen-through `order`
validation for the species part. -/
theorem C1_witness :
    (TaxonomyResolver.resolve_taxid "" "" "Primates" "WrongFam" "Homo" "sapiens" td0).2.1
      = "species"
    ∧ (TaxonomyResolver.resolve_taxid "" "" "" "Hominidae" "Homo" "" td0).2.1 = "genus" := by
  constructor
  · exact ((C1_species_genus_validation "" "" "Primates" "WrongFam" "Homo" "sapiens" td0).1
      (by decide) (by decide) rec0 (by decide)).mpr (by decide)
  · exact ((C1_species_genus_validation "" "" "" "Hominidae" "Homo" "" td0).2
      (by decide) rfl [rec0] (by decide)).mpr (by decide)

/-- Claim C2, counterexample: the record built from `spLine` has its derived
species discarded (it contains the marker `sp.`), it is accepted at rank
`family`, and the returned lineage string renders the discarded species as
the text `None`, not as the empty string the claim requires. -/
theorem C2_counterexample :
    (TaxonomyResolver.resolve_taxid "" "" "" "Fam" "" ""
        (load_rankedlineage [spLine])).2.2.1 =
      some "superkingdom:Euk;kingdom:King;phylum:Phy;class:Cls;order:Ord;family:Fam;genus:Genus;species:None"
    ∧ "superkingdom:Euk;kingdom:King;phylum:Phy;class:Cls;order:Ord;family:Fam;genus:Genus;species:None" ≠
      "superkingdom:Euk;kingdom:King;phylum:Phy;class:Cls;order:Ord;family:Fam;genus:Genus;species:" := by
  decide

/-- Claim C2, amended: for every accepted candidate record the lineage
string is the `;`-join of `rank:value` pairs in the fixed order
superkingdom, kingdom, phylum, class, order, family, genus, species, where
a string-valued field renders as itself (empty when empty), but a
discarded/absent derived species renders as the text `None`, not as the
empty string.  Every accepted record flows through `create_return_tuple`. -/
theorem C2_lineage_string_rendering (l : Lineage) (mr : String) (m : Bool) :
    (∀ s, l.species = some s →
      create_return_tuple l mr m = (some l.taxid, mr,
        some (joinSemi
          ["superkingdom:" ++ l.superkingdom, "kingdom:" ++ l.kingdom,
           "phylum:" ++ l.phylum, "class:" ++ l.class_name, "order:" ++ l.order,
           "family:" ++ l.family, "genus:" ++ l.genus, "species:" ++ s]), m))
    ∧ (l.species = none →
      create_return_tuple l mr m = (some l.taxid, mr,
        some (joinSemi
          ["superkingdom:" ++ l.superkingdom, "kingdom:" ++ l.kingdom,
           "phylum:" ++ l.phylum, "class:" ++ l.class_name, "order:" ++ l.order,
           "family:" ++ l.family, "genus:" ++ l.genus, "species:None"]), m)) := by
  obtain ⟨t, sn, sp, gn, fa, od, cn, ph, ki, su⟩ := l
  constructor
  · intro s hs
    cases hs
    rfl
  · intro hs
    cases hs
    rfl

/-- Claim C2, witness: the amended rendering applied to the record with a
present species (`rec0`) and to the record with a discarded species
(`ncRec`). -/
theorem C2_witness :
    create_return_tuple rec0 "x" true = (some rec0.taxid, "x",
      some (joinSemi
        ["superkingdom:" ++ rec0.superkingdom, "kingdom:" ++ rec0.kingdom,
         "phylum:" ++ rec0.phylum, "class:" ++ rec0.class_name, "order:" ++ rec0.order,
         "family:" ++ rec0.family, "genus:" ++ rec0.genus, "species:" ++ "sapiens"]), true)
    ∧ create_return_tuple ncRec "y" false = (some ncRec.taxid, "y",
      some (joinSemi
        ["superkingdom:" ++ ncRec.superkingdom, "kingdom:" ++ ncRec.kingdom,
         "phylum:" ++ ncRec.phylum, "class:" ++ ncRec.class_name, "order:" ++ ncRec.order,
         "family:" ++ ncRec.family, "genus:" ++ ncRec.genus, "species:None"]), false) :=
  ⟨(C2_lineage_string_rendering rec0 "x" true).1 "sapiens" rfl,
   (C2_lineage_string_rendering ncRec "y" false).2 rfl⟩

/-- One step of the rank-by-rank attempt when the query value is falsy. -/
theorem rank_attempt_skip (q : Query) (td : TaxData) (rank : String) (rest : List String)
    (h : pyTruthy (targetGet q rank) = false) :
    TaxonomyResolver.rank_attempt q td (rank :: rest) =
      TaxonomyResolver.rank_attempt q td rest := by
  unfold TaxonomyResolver.rank_attempt
  rw [if_neg (by simp [h])]
  cases rest <;> rfl

/-- One step of the rank-by-rank attempt when the query value is truthy but
absent from that rank's index. -/
theorem rank_attempt_step_none (q : Query) (td : TaxData) (rank : String) (rest : List String)
    (h : pyTruthy (targetGet q rank) = true)
    (hidx : byRankIndex td rank (pyLower ((targetGet q rank).getD "")) = none) :
    TaxonomyResolver.rank_attempt q td (rank :: rest) =
      TaxonomyResolver.rank_attempt q td rest := by
  unfold TaxonomyResolver.rank_attempt
  rw [if_pos h, hidx]
  cases rest <;> rfl

/-- Claim C3, counterexample: an index built from a reference line whose
genus and family fields are the literal sentinel `not collected` is
non-empty, and the all-sentinel query resolves against it at rank `genus`
with taxid `7` instead of returning unmatched/null: the sentinel IS matched
against the index like an ordinary value. -/
theorem C3_counterexample :
    (load_rankedlineage [ncLine]).by_genus "not collected" ≠ none
    ∧ TaxonomyResolver.resolve_taxid "not collected" "not collected" "not collected"
        "not collected" "not collected" "not collected" (load_rankedlineage [ncLine]) =
      (some "7", "genus",
       some "superkingdom:sk;kingdom:k;phylum:p;class:c;order:o;family:not collected;genus:not collected;species:None",
       false) := by decide

/-- Claim C3, amended: the all-empty query always yields taxid null and
matchedRank `unmatched`, for every index, and empty rank values are never
matched; the all-`not collected` query yields the same only when the
sentinel is not itself a key of the index (no genus, family, order, class
or phylum key `not collected` and no species key `not collected `,
the key the species attempt computes by stripping the duplicated genus
prefix); otherwise the sentinel is matched like any ordinary value. -/
theorem C3_empty_sentinel_unmatched (td : TaxData) :
    TaxonomyResolver.resolve_taxid "" "" "" "" "" "" td = (none, "unmatched", none, false)
    ∧ (td.by_species "not collected " = none → td.by_genus "not collected" = none →
       td.by_family "not collected" = none → td.by_order "not collected" = none →
       td.by_class "not collected" = none → td.by_phylum "not collected" = none →
       TaxonomyResolver.resolve_taxid "not collected" "not collected" "not collected"
         "not collected" "not collected" "not collected" td =
         (none, "unmatched", none, false)) := by
  constructor
  · rw [resolve_taxid_TR_eq]
    have hsa : TaxonomyResolver.species_attempt ⟨"", "", "", "", "", ""⟩ td = none := by
      unfold TaxonomyResolver.species_attempt
      rw [if_neg (by simp)]
    have hga : TaxonomyResolver.genus_attempt ⟨"", "", "", "", "", ""⟩ td = none := by
      unfold TaxonomyResolver.genus_attempt
      rw [if_neg (by simp)]
    have hra : TaxonomyResolver.rank_attempt ⟨"", "", "", "", "", ""⟩ td validation_levels
        = none := by
      rw [show validation_levels = ["family", "order", "class", "phylum"] from rfl]
      rw [rank_attempt_skip _ _ _ _ (by decide), rank_attempt_skip _ _ _ _ (by decide),
        rank_attempt_skip _ _ _ _ (by decide), rank_attempt_skip _ _ _ _ (by decide)]
      rfl
    rw [hsa, hga, hra]
  · intro h1 h2 h3 h4 h5 h6
    rw [resolve_taxid_TR_eq]
    have hsa : TaxonomyResolver.species_attempt
        ⟨"not collected", "not collected", "not collected", "not collected",
         "not collected", "not collected"⟩ td = none := by
      unfold TaxonomyResolver.species_attempt
      rw [if_pos (by decide)]
      dsimp only
      rw [show species_query_key "not collected" "not collected" = "not collected " by decide]
      rw [h1]
    have hga : TaxonomyResolver.genus_attempt
        ⟨"not collected", "not collected", "not collected", "not collected",
         "not collected", "not collected"⟩ td = none := by
      unfold TaxonomyResolver.genus_attempt
      rw [if_pos (by decide)]
      dsimp only
      rw [show pyLower "not collected" = "not collected" by decide]
      rw [h2]
    have hra : TaxonomyResolver.rank_attempt
        ⟨"not collected", "not collected", "not collected", "not collected",
         "not collected", "not collected"⟩ td validation_levels = none := by
      rw [show validation_levels = ["family", "order", "class", "phylum"] from rfl]
      rw [rank_attempt_step_none _ _ _ _ (by decide)
          (by rw [show (byRankIndex td "family") = td.by_family from rfl,
                show pyLower ((targetGet ⟨"not collected", "not collected", "not collected",
                  "not collected", "not collected", "not collected"⟩ "family").getD "")
                  = "not collected" by decide]; exact h3)]
      rw [rank_attempt_step_none _ _ _ _ (by decide)
          (by rw [show (byRankIndex td "order") = td.by_order from rfl,
                show pyLower ((targetGet ⟨"not collected", "not collected", "not collected",
                  "not collected", "not collected", "not collected"⟩ "order").getD "")
                  = "not collected" by decide]; exact h4)]
      rw [rank_attempt_step_none _ _ _ _ (by decide)
          (by rw [show (byRankIndex td "class") = td.by_class from rfl,
                show pyLower ((targetGet ⟨"not collected", "not collected", "not collected",
                  "not collected", "not collected", "not collected"⟩ "class").getD "")
                  = "not collected" by decide]; exact h5)]
      rw [rank_attempt_step_none _ _ _ _ (by decide)
          (by rw [show (byRankIndex td "phylum") = td.by_phylum from rfl,
                show pyLower ((targetGet ⟨"not collected", "not collected", "not collected",
                  "not collected", "not collected", "not collected"⟩ "phylum").getD "")
                  = "not collected" by decide]; exact h6)]
      rfl
    rw [hsa, hga, hra]

/-- Claim C3, witness: the sentinel branch of the amended theorem applied
to the `Homo sapiens` index, where no sentinel key occurs. -/
theorem C3_witness :
    TaxonomyResolver.resolve_taxid "not collected" "not collected" "not collected"
      "not collected" "not collected" "not collected" td0 =
      (none, "unmatched", none, false) :=
  (C3_empty_sentinel_unmatched td0).2 (by decide) (by decide) (by decide) (by decide)
    (by decide) (by decide)

/-- Claim C4: after build, the scientific-name index at the lowercased
scientific name of a parsed line maps to that line's record — and when
several lines share the key, the record of the last such line is retained.
The line decomposition `l₁ ++ line :: l₂` with no later collision in `l₂`
expresses `last occurrence wins`; the record carries the line's id as its
`taxid` field by construction of `parseLine`. -/
theorem C4_scientific_name_last_wins (l1 l2 : List String) (line : String) (rec : Lineage)
    (hp : parseLine line = some rec)
    (hlater : ∀ line' ∈ l2, ∀ r2, parseLine line' = some r2 →
      pyLower r2.scientific_name ≠ pyLower rec.scientific_name) :
    (load_rankedlineage (l1 ++ line :: l2)).by_scientific_name
      (pyLower rec.scientific_name) = some rec := by
  rw [load_rankedlineage, foldl_by_sci]
  have hnil : (l2.filterMap parseLine).filter
      (fun r => pyLower r.scientific_name == pyLower rec.scientific_name) = [] := by
    rw [List.filter_eq_nil_iff]
    intro r hr
    rcases List.mem_filterMap.mp hr with ⟨line', hline', hparse⟩
    simp [hlater line' hline' r hparse]
  rw [List.filterMap_append, List.filterMap_cons, hp]
  rw [List.filter_append]
  simp only [List.filter_cons, beq_self_eq_true, if_true, hnil]
  rw [List.getLast?_append]
  rfl

/-- Claim C4, witness: two lines share the lowercased scientific name
`abc def` with taxids 1 and 2; the index retains the record of the later
line, with taxid 2. -/
theorem C4_witness :
    (load_rankedlineage ([dupLineA] ++ dupLineB :: [])).by_scientific_name
      (pyLower dupRecB.scientific_name) = some dupRecB :=
  C4_scientific_name_last_wins [dupLineA] [] dupLineB dupRecB (by decide)
    (fun line' hline' => absurd hline' (List.not_mem_nil line'))

/-- Validation at level `family` succeeds iff both family values are truthy
and agree lowercased; sufficiency direction. -/
theorem validate_family_true (l : Lineage) (q : Query) (hq : q.family ≠ "")
    (hlf : l.family ≠ "") (hlow : pyLower l.family = pyLower q.family) :
    TaxonomyResolver.validate_against_higher_ranks l q "family" = true := by
  unfold TaxonomyResolver.validate_against_higher_ranks
  rw [show validation_ranks "family" = ["family"] from rfl]
  unfold TaxonomyResolver.checkRanks
  rw [show targetGet q "family" = some q.family from rfl,
    show lineageGet l "family" = some l.family from rfl]
  rw [if_pos (by simp [pyTruthy, hq, hlf])]
  simp [hlow]

/-- Validation at level `order`, sufficiency direction. -/
theorem validate_order_true (l : Lineage) (q : Query) (hq : q.order ≠ "")
    (hlf : l.order ≠ "") (hlow : pyLower l.order = pyLower q.order) :
    TaxonomyResolver.validate_against_higher_ranks l q "order" = true := by
  unfold TaxonomyResolver.validate_against_higher_ranks
  rw [show validation_ranks "order" = ["order"] from rfl]
  unfold TaxonomyResolver.checkRanks
  rw [show targetGet q "order" = some q.order from rfl,
    show lineageGet l "order" = some l.order from rfl]
  rw [if_pos (by simp [pyTruthy, hq, hlf])]
  simp [hlow]

/-- Validation at level `class`, sufficiency direction. -/
theorem validate_class_true (l : Lineage) (q : Query) (hq : q.class_name ≠ "")
    (hlf : l.class_name ≠ "") (hlow : pyLower l.class_name = pyLower q.class_name) :
    TaxonomyResolver.validate_against_higher_ranks l q "class" = true := by
  unfold TaxonomyResolver.validate_against_higher_ranks
  rw [show validation_ranks "class" = ["class"] from rfl]
  unfold TaxonomyResolver.checkRanks
  rw [show targetGet q "class" = some q.class_name from rfl,
    show lineageGet l "class" = some l.class_name from rfl]
  rw [if_pos (by simp [pyTruthy, hq, hlf])]
  simp [hlow]

/-- Validation at level `phylum`, sufficiency direction. -/
theorem validate_phylum_true (l : Lineage) (q : Query) (hq : q.phylum ≠ "")
    (hlf : l.phylum ≠ "") (hlow : pyLower l.phylum = pyLower q.phylum) :
    TaxonomyResolver.validate_against_higher_ranks l q "phylum" = true := by
  unfold TaxonomyResolver.validate_against_higher_ranks
  rw [show validation_ranks "phylum" = ["phylum"] from rfl]
  unfold TaxonomyResolver.checkRanks
  rw [show targetGet q "phylum" = some q.phylum from rfl,
    show lineageGet l "phylum" = some l.phylum from rfl]
  rw [if_pos (by simp [pyTruthy, hq, hlf])]
  simp [hlow]

/-- Claim C5: for every built index, every record stored in the species
index has a truthy, marker-free derived species (no `sp.`, `cf.`, `aff.`,
`subsp.`, `var.` or `x ` substring in the lowercased value), and the key
derives from exactly that value: no `bySpecies` key ever derives from a
species containing a marker. -/
theorem C5_by_species_marker_free (lines : List String) (k : String) (rec : Lineage)
    (h : (load_rankedlineage lines).by_species k = some rec) :
    ∃ s, rec.species = some s ∧ s ≠ "" ∧ hasMarker (pyLower s) = false ∧
      k = pyLower rec.genus ++ " " ++ pyLower s :=
  load_by_species_inv lines k rec h

/-- Claim C5, witness: the species key of the `Homo sapiens` index. -/
theorem C5_witness :
    ∃ s, rec0.species = some s ∧ s ≠ "" ∧ hasMarker (pyLower s) = false ∧
      "homo sapiens" = pyLower rec0.genus ++ " " ++ pyLower s :=
  C5_by_species_marker_free [homoLine] "homo sapiens" rec0 (by decide)

/-- Claim C6: when a family value occurs in exactly one index entry, a
query providing that family (and no genus or species) together with a class
value differing from the record's class still resolves to that record with
matchedRank `family`: step 3 validates only the family rank, never class. -/
theorem C6_family_match_despite_class (td : TaxData) (p c o f : String) (l : Lineage)
    (hf : f ≠ "") (hcl : pyLower c ≠ pyLower l.class_name)
    (hlk : td.by_family (pyLower f) = some [l]) (hlf : l.family ≠ "")
    (hmatch : pyLower l.family = pyLower f) :
    TaxonomyResolver.resolve_taxid p c o f "" "" td =
      create_return_tuple l "family" false := by
  rw [resolve_taxid_TR_eq]
  have hsa : TaxonomyResolver.species_attempt ⟨p, c, o, f, "", ""⟩ td = none := by
    unfold TaxonomyResolver.species_attempt
    rw [if_neg (by simp)]
  have hval : TaxonomyResolver.validate_against_higher_ranks l ⟨p, c, o, f, "", ""⟩ "family"
      = true :=
    validate_family_true l ⟨p, c, o, f, "", ""⟩ hf hlf hmatch
  have hga : TaxonomyResolver.genus_attempt ⟨p, c, o, f, "", ""⟩ td = none := by
    unfold TaxonomyResolver.genus_attempt
    rw [if_neg (by simp)]
  have hra : TaxonomyResolver.rank_attempt ⟨p, c, o, f, "", ""⟩ td validation_levels =
      some (create_return_tuple l "family" false) := by
    rw [show validation_levels = ["family", "order", "class", "phylum"] from rfl]
    unfold TaxonomyResolver.rank_attempt
    rw [if_pos (show pyTruthy (targetGet ⟨p, c, o, f, "", ""⟩ "family") = true by
      simp [pyTruthy, targetGet, hf])]
    rw [show byRankIndex td "family" = td.by_family from rfl]
    rw [show pyLower ((targetGet ⟨p, c, o, f, "", ""⟩ "family").getD "") = pyLower f from rfl]
    rw [hlk]
    simp [List.find?, hval]
  rw [hsa, hga, hra]

/-- Claim C6, witness: a mismatched class `WrongClass` does not prevent the
family-level match against the unique `Hominidae` record. -/
theorem C6_witness :
    TaxonomyResolver.resolve_taxid "" "WrongClass" "" "Hominidae" "" "" td0 =
      create_return_tuple rec0 "family" false :=
  C6_family_match_despite_class td0 "" "WrongClass" "" "Hominidae" rec0
    (by decide) (by decide) (by decide) (by decide) (by decide)

/-- Claim C7: in the rank-by-rank attempt, validation at the attempted rank
succeeds for every candidate stored under the looked-up key — by index
construction the lowercased candidate rank value equals the key — so the
candidate search `find?` degenerates to `head?`: the first record in
file-encounter order is accepted and validation filters nothing. -/
theorem C7_rank_validation_filters_nothing (lines : List String) (q : Query) :
    (q.family ≠ "" → ∀ ms,
      (load_rankedlineage lines).by_family (pyLower q.family) = some ms →
      ms ≠ [] ∧ (∀ l ∈ ms,
          TaxonomyResolver.validate_against_higher_ranks l q "family" = true) ∧
        ms.find? (fun l =>
          TaxonomyResolver.validate_against_higher_ranks l q "family") = ms.head?)
    ∧ (q.order ≠ "" → ∀ ms,
      (load_rankedlineage lines).by_order (pyLower q.order) = some ms →
      ms ≠ [] ∧ (∀ l ∈ ms,
          TaxonomyResolver.validate_against_higher_ranks l q "order" = true) ∧
        ms.find? (fun l =>
          TaxonomyResolver.validate_against_higher_ranks l q "order") = ms.head?)
    ∧ (q.class_name ≠ "" → ∀ ms,
      (load_rankedlineage lines).by_class (pyLower q.class_name) = some ms →
      ms ≠ [] ∧ (∀ l ∈ ms,
          TaxonomyResolver.validate_against_higher_ranks l q "class" = true) ∧
        ms.find? (fun l =>
          TaxonomyResolver.validate_against_higher_ranks l q "class") = ms.head?)
    ∧ (q.phylum ≠ "" → ∀ ms,
      (load_rankedlineage lines).by_phylum (pyLower q.phylum) = some ms →
      ms ≠ [] ∧ (∀ l ∈ ms,
          TaxonomyResolver.validate_against_higher_ranks l q "phylum" = true) ∧
        ms.find? (fun l =>
          TaxonomyResolver.validate_against_higher_ranks l q "phylum") = ms.head?) := by
  obtain ⟨hF, hO, hC, hP⟩ := load_multiInv lines
  refine ⟨?_, ?_, ?_, ?_⟩
  · intro hq ms hms
    obtain ⟨hne, hmem⟩ := hF _ _ hms
    have hval : ∀ l ∈ ms, TaxonomyResolver.validate_against_higher_ranks l q "family"
        = true := by
      intro l hl
      obtain ⟨hlf, hlow⟩ := hmem l hl
      exact validate_family_true l q hq hlf hlow
    exact ⟨hne, hval, find?_eq_head? _ _ hval⟩
  · intro hq ms hms
    obtain ⟨hne, hmem⟩ := hO _ _ hms
    have hval : ∀ l ∈ ms, TaxonomyResolver.validate_against_higher_ranks l q "order"
        = true := by
      intro l hl
      obtain ⟨hlf, hlow⟩ := hmem l hl
      exact validate_order_true l q hq hlf hlow
    exact ⟨hne, hval, find?_eq_head? _ _ hval⟩
  · intro hq ms hms
    obtain ⟨hne, hmem⟩ := hC _ _ hms
    have hval : ∀ l ∈ ms, TaxonomyResolver.validate_against_higher_ranks l q "class"
        = true := by
      intro l hl
      obtain ⟨hlf, hlow⟩ := hmem l hl
      exact validate_class_true l q hq hlf hlow
    exact ⟨hne, hval, find?_eq_head? _ _ hval⟩
  · intro hq ms hms
    obtain ⟨hne, hmem⟩ := hP _ _ hms
    have hval : ∀ l ∈ ms, TaxonomyResolver.validate_against_higher_ranks l q "phylum"
        = true := by
      intro l hl
      obtain ⟨hlf, hlow⟩ := hmem l hl
      exact validate_phylum_true l q hq hlf hlow
    exact ⟨hne, hval, find?_eq_head? _ _ hval⟩

/-- Claim C7, witness: the family conjunct applied to the `Homo sapiens`
index at the family key `Hominidae`. -/
theorem C7_witness :
    ([rec0] : List Lineage) ≠ [] ∧
    (∀ l ∈ ([rec0] : List Lineage), TaxonomyResolver.validate_against_higher_ranks l
        ⟨"", "", "", "Hominidae", "", ""⟩ "family" = true) ∧
    ([rec0] : List Lineage).find? (fun l =>
        TaxonomyResolver.validate_against_higher_ranks l
          ⟨"", "", "", "Hominidae", "", ""⟩ "family") = ([rec0] : List Lineage).head? :=
  (C7_rank_validation_filters_nothing [homoLine] ⟨"", "", "", "Hominidae", "", ""⟩).1
    (by decide) [rec0] (by decide)
